import Mathlib

/-!
Verification of the field-masking / validation-trigger / geo-sync contract of
`src/components/CompanySection.tsx` (vendor-onboarding form component).

The component's logic is shallowly embedded below:
* strings are `List Char` (JavaScript `slice(0, n)` is `List.take n`,
  `replace(/[^X]/g, '')` is `List.filter`, `toUpperCase()` is a character map);
* each input's `onChange` / `onBlur` handler becomes a pure function from the
  raw event value to the list of collaborator calls (`Effect`) it performs;
* the `readOnly` attribute expressions of the state/city inputs become Boolean
  functions of the two hook flags they read.

`toUpperCase` is modelled on ASCII (lowercase `a`–`z` maps to `A`–`Z`, all other
characters are fixed); the claims under study only concern ASCII inputs and the
`A`–`Z`/`0`–`9` filters that run after the case map, so this abstraction does not
change any verdict.
-/

namespace CompanySection

/-- The field identifiers handled by the component (source lines 89–480). -/
inductive FieldId where
  | legalCompanyName
  | displayName
  | companyName
  | subVendor
  | vendorCode
  | primaryContactName
  | primaryContactPhone
  | primaryContactEmail
  | contactPersonName
  | vendorPhoneNumber
  | vendorEmailAddress
  | gstin
  | address
  | pincode
deriving DecidableEq, Repr

/-- The string name a field is registered under in the form-state store. -/
def fieldName : FieldId → String
  | .legalCompanyName => "legalCompanyName"
  | .displayName => "displayName"
  | .companyName => "companyName"
  | .subVendor => "subVendor"
  | .vendorCode => "vendorCode"
  | .primaryContactName => "primaryContactName"
  | .primaryContactPhone => "primaryContactPhone"
  | .primaryContactEmail => "primaryContactEmail"
  | .contactPersonName => "contactPersonName"
  | .vendorPhoneNumber => "vendorPhoneNumber"
  | .vendorEmailAddress => "vendorEmailAddress"
  | .gstin => "gstin"
  | .address => "address"
  | .pincode => "pincode"

/-- ASCII digit, the class kept by `replace(/\D/g, '')` (JS `\D` is `[^0-9]`). -/
def isAsciiDigit (c : Char) : Bool := decide (48 ≤ c.toNat ∧ c.toNat ≤ 57)

/-- ASCII uppercase letter `A`–`Z`. -/
def isUpperAlpha (c : Char) : Bool := decide (65 ≤ c.toNat ∧ c.toNat ≤ 90)

/-- ASCII lowercase letter `a`–`z`. -/
def isLowerAlpha (c : Char) : Bool := decide (97 ≤ c.toNat ∧ c.toNat ≤ 122)

/-- ASCII letter, the `a-zA-Z` ranges of the name-field regex. -/
def isAsciiAlpha (c : Char) : Bool := isLowerAlpha c || isUpperAlpha c

/-- The apostrophe character (code point 39), last member of the name-field
character class. -/
def apostropheChar : Char := Char.ofNat 39

/-- JavaScript regex `\s`: the whitespace characters matched by the `\s` inside
`[^a-zA-Z\s\-']` (tab, LF, VT, FF, CR, space, NBSP, Ogham space, the U+2000
block, line/paragraph separators, narrow NBSP, math space, ideographic space,
BOM). -/
def isJsWhitespace (c : Char) : Bool :=
  decide (c.toNat = 9) || decide (c.toNat = 10) || decide (c.toNat = 11) ||
  decide (c.toNat = 12) || decide (c.toNat = 13) || decide (c.toNat = 32) ||
  decide (c.toNat = 160) || decide (c.toNat = 5760) ||
  decide (8192 ≤ c.toNat ∧ c.toNat ≤ 8202) ||
  decide (c.toNat = 8232) || decide (c.toNat = 8233) ||
  decide (c.toNat = 8239) || decide (c.toNat = 8287) ||
  decide (c.toNat = 12288) || decide (c.toNat = 65279)

/-- `toUpperCase()` restricted to ASCII: lowercase letters map to their
uppercase counterpart, every other character is unchanged. -/
def jsToUpperAscii (c : Char) : Char :=
  if isLowerAlpha c then Char.ofNat (c.toNat - 32) else c

/-- The class kept by `replace(/[^A-Z0-9]/g, '')` (vendorCode, gstin). -/
def alnumUpper (c : Char) : Bool := isUpperAlpha c || isAsciiDigit c

/-- The class kept by `replace(/[^a-zA-Z\s\-']/g, '')` (primaryContactName,
contactPersonName): ASCII letters, any `\s` whitespace, hyphen, apostrophe. -/
def nameAllowed (c : Char) : Bool :=
  isAsciiAlpha c || isJsWhitespace c || decide (c.toNat = 45) ||
  decide (c = apostropheChar)

/-- The sanitization each field's `onChange` handler applies to the raw event
value before forwarding it, one equation per handler in the source:
lines 94, 116, 138, 161 (plain `slice`), 185 (vendorCode), 211
(primaryContactName), 238 (primaryContactPhone), 263 (email, no mask), 286
(contactPersonName), 313 (vendorPhoneNumber), 338 (email, no mask), 361
(gstin), 469 (address), 392 (pincode). -/
def sanitize : FieldId → List Char → List Char
  | .legalCompanyName, raw => raw.take 60
  | .displayName, raw => raw.take 30
  | .companyName, raw => raw.take 30
  | .subVendor, raw => raw.take 20
  | .vendorCode, raw => ((raw.map jsToUpperAscii).filter alnumUpper).take 20
  | .primaryContactName, raw => (raw.filter nameAllowed).take 25
  | .primaryContactPhone, raw => (raw.filter isAsciiDigit).take 10
  | .primaryContactEmail, raw => raw
  | .contactPersonName, raw => (raw.filter nameAllowed).take 30
  | .vendorPhoneNumber, raw => (raw.filter isAsciiDigit).take 10
  | .vendorEmailAddress, raw => raw
  | .gstin, raw => ((raw.map jsToUpperAscii).filter alnumUpper).take 15
  | .address, raw => raw.take 150
  | .pincode, raw => (raw.filter isAsciiDigit).take 6

/-- A call the component makes on one of its injected collaborators. -/
inductive Effect where
  | setField : String → List Char → Effect
  | validateField : String → Effect
  | setPincode : List Char → Effect
  | setStateVal : List Char → Effect
  | setCityVal : List Char → Effect
deriving DecidableEq, Repr

/-- Whether an effect is a `setField` call on the form-state store. -/
def isSetField : Effect → Bool
  | .setField _ _ => true
  | _ => false

/-- Whether an effect is a `validateField` call. -/
def isValidate : Effect → Bool
  | .validateField _ => true
  | _ => false

/-- The collaborator calls a field's `onChange` handler performs on raw event
value `raw`: every basics field calls `setField(name, sanitized)`; the pincode
input instead calls the geo hook's `setPincode(sanitized)` (line 393). -/
def onChangeEffects (id : FieldId) (raw : List Char) : List Effect :=
  match id with
  | .pincode => [Effect.setPincode (sanitize .pincode raw)]
  | _ => [Effect.setField (fieldName id) (sanitize id raw)]

/-- JavaScript truthiness of `basics.gstin` (a possibly-absent string):
`undefined` and the empty string are falsy. -/
def jsTruthy : Option (List Char) → Bool
  | none => false
  | some [] => false
  | some (_ :: _) => true

/-- The collaborator calls a field's `onBlur` handler performs. Every basics
field unconditionally calls `validateField(name)`, except gstin, whose handler
(lines 364–368) guards the call by truthiness of the current value; the pincode
input has no `onBlur` handler. -/
def onBlurEffects (id : FieldId) (gstinValue : Option (List Char)) : List Effect :=
  match id with
  | .gstin => if jsTruthy gstinValue then [Effect.validateField "gstin"] else []
  | .pincode => []
  | _ => [Effect.validateField (fieldName id)]

/-- The state input's `onChange` (line 424): forwards the raw value to
`setState` untouched. -/
def stateOnChange (raw : List Char) : List Effect := [Effect.setStateVal raw]

/-- The city input's `onChange` (line 448): forwards the raw value to
`setCity` untouched. -/
def cityOnChange (raw : List Char) : List Effect := [Effect.setCityVal raw]

/-- The state input's `readOnly` attribute (line 425): `!isManual && !geoError`,
with `geoErrorActive` the truthiness of the hook's error message. -/
def stateReadOnly (isManual geoErrorActive : Bool) : Bool :=
  !isManual && !geoErrorActive

/-- The city input's `readOnly` attribute (line 449). -/
def cityReadOnly (isManual geoErrorActive : Bool) : Bool :=
  !isManual && !geoErrorActive

/-- The transport-mode options of the selector (lines 510–513). -/
inductive TransportMode where
  | road
  | air
  | rail
  | ship
deriving DecidableEq, Repr

/-- The transport-mode selector's `onChange` handler (lines 501–504): the value
passed to `onTransportModeChange`, ignoring the selected option. -/
def transportModeOnChange (_selected : TransportMode) : TransportMode :=
  TransportMode.road

/-- The seven fields the spec's table gives a character-class rule. -/
def charClassFields : List FieldId :=
  [.vendorCode, .primaryContactName, .contactPersonName, .primaryContactPhone,
   .vendorPhoneNumber, .gstin, .pincode]

/-- The spec table's maxLength for each field (0 stands in for the two
unbounded email fields, which no claim's bound mentions). -/
def charClassMax : FieldId → Nat
  | .legalCompanyName => 60
  | .displayName => 30
  | .companyName => 30
  | .subVendor => 20
  | .vendorCode => 20
  | .primaryContactName => 25
  | .primaryContactPhone => 10
  | .primaryContactEmail => 0
  | .contactPersonName => 30
  | .vendorPhoneNumber => 10
  | .vendorEmailAddress => 0
  | .gstin => 15
  | .address => 150
  | .pincode => 6

/-- Modelled from the spec's table, read strictly: the allowed character class
per field, with "space" meaning the space character only (classes of fields
outside the table's character-class rows are unconstrained). -/
def specStrictAllowed : FieldId → Char → Bool
  | .vendorCode, c => alnumUpper c
  | .gstin, c => alnumUpper c
  | .primaryContactName, c =>
      isAsciiAlpha c || decide (c.toNat = 32) || decide (c.toNat = 45) ||
      decide (c = apostropheChar)
  | .contactPersonName, c =>
      isAsciiAlpha c || decide (c.toNat = 32) || decide (c.toNat = 45) ||
      decide (c = apostropheChar)
  | .primaryContactPhone, c => isAsciiDigit c
  | .vendorPhoneNumber, c => isAsciiDigit c
  | .pincode, c => isAsciiDigit c
  | _, _ => true

/-- The character class the code actually keeps for each field, i.e. the spec's
table with "space" widened to any JS `\s` whitespace for the two name fields. -/
def amendedAllowed : FieldId → Char → Bool
  | .vendorCode, c => alnumUpper c
  | .gstin, c => alnumUpper c
  | .primaryContactName, c => nameAllowed c
  | .contactPersonName, c => nameAllowed c
  | .primaryContactPhone, c => isAsciiDigit c
  | .vendorPhoneNumber, c => isAsciiDigit c
  | .pincode, c => isAsciiDigit c
  | _, _ => true

/-- The case transform the handler applies before filtering (uppercase for
vendorCode and gstin, none elsewhere). -/
def caseTx : FieldId → List Char → List Char
  | .vendorCode, raw => raw.map jsToUpperAscii
  | .gstin, raw => raw.map jsToUpperAscii
  | _, raw => raw

/-- The filter class of each handler's `replace` call (trivial where the
handler has no filter). -/
def codeAllowed : FieldId → Char → Bool
  | .vendorCode => alnumUpper
  | .gstin => alnumUpper
  | .primaryContactName => nameAllowed
  | .contactPersonName => nameAllowed
  | .primaryContactPhone => isAsciiDigit
  | .vendorPhoneNumber => isAsciiDigit
  | .pincode => isAsciiDigit
  | _ => fun _ => true

/-- Modelled from the spec's words: sanitize by filtering first, then
truncating to maxLength. -/
def filterThenTruncate (id : FieldId) (raw : List Char) : List Char :=
  ((caseTx id raw).filter (codeAllowed id)).take (charClassMax id)

/-- Modelled from the spec's words: the order the spec rules out — truncate to
maxLength first, then filter. -/
def truncateThenFilter (id : FieldId) (raw : List Char) : List Char :=
  ((caseTx id raw).take (charClassMax id)).filter (codeAllowed id)

-- ============================================================================
-- Helper lemmas
-- ============================================================================

theorem mem_filter_take {p : Char → Bool} {l : List Char} {n : Nat} {c : Char}
    (h : c ∈ (l.filter p).take n) : p c = true :=
  (List.mem_filter.mp (List.take_subset _ _ h)).2

theorem take_eq_self_of_length_le {α : Type} :
    ∀ (l : List α) (n : Nat), l.length ≤ n → l.take n = l
  | [], _, _ => by simp
  | _ :: _, 0, h => by simp at h
  | a :: l, n + 1, h => by
      simp only [List.take_succ_cons, List.length_cons, Nat.add_le_add_iff_right] at h ⊢
      exact congrArg (a :: ·) (take_eq_self_of_length_le l n h)

theorem map_id_of_forall {α : Type} (f : α → α) :
    ∀ (l : List α), (∀ c ∈ l, f c = c) → l.map f = l
  | [], _ => rfl
  | a :: l, h => by
      simp only [List.map_cons]
      rw [h a (List.mem_cons_self a l),
        map_id_of_forall f l (fun c hc => h c (List.mem_cons_of_mem a hc))]

theorem length_take_le' {α : Type} (l : List α) (n : Nat) :
    (l.take n).length ≤ n := by
  rw [List.length_take]
  exact Nat.min_le_left n l.length

theorem filter_take_idem (p : Char → Bool) (l : List Char) (n : Nat) :
    (((l.filter p).take n).filter p).take n = (l.filter p).take n := by
  rw [List.filter_eq_self.mpr (fun c hc => mem_filter_take hc)]
  exact take_eq_self_of_length_le _ _ (length_take_le' _ _)

theorem upper_fix_of_alnumUpper (c : Char) (h : alnumUpper c = true) :
    jsToUpperAscii c = c := by
  have hlow : isLowerAlpha c = false := by
    simp only [alnumUpper, isUpperAlpha, isAsciiDigit, Bool.or_eq_true,
      decide_eq_true_eq] at h
    simp only [isLowerAlpha, decide_eq_false_iff_not]
    omega
  simp [jsToUpperAscii, hlow]

theorem upper_filter_take_idem (l : List Char) (n : Nat) :
    (((((l.map jsToUpperAscii).filter alnumUpper).take n).map
        jsToUpperAscii).filter alnumUpper).take n =
      ((l.map jsToUpperAscii).filter alnumUpper).take n := by
  rw [map_id_of_forall jsToUpperAscii _
    (fun c hc => upper_fix_of_alnumUpper c (mem_filter_take hc))]
  exact filter_take_idem alnumUpper (l.map jsToUpperAscii) n

theorem take_idem {α : Type} (l : List α) (n : Nat) :
    (l.take n).take n = l.take n := by
  rw [List.take_take, Nat.min_self]

-- ============================================================================
-- Claims
-- ============================================================================

/-- C1 (amended): for every field with a character-class rule, the sanitized
value produced by the change handler contains only characters of the field's
allowed class — with "space" widened to any JS whitespace for
primaryContactName and contactPersonName — and its length is bounded by the
field's maxLength (20, 25, 30, 10, 10, 15, 6). -/
theorem sanitize_class_and_length (id : FieldId) (raw : List Char)
    (h : id ∈ charClassFields) :
    (∀ c ∈ sanitize id raw, amendedAllowed id c = true) ∧
    (sanitize id raw).length ≤ charClassMax id := by
  fin_cases h <;>
    exact ⟨fun c hc => mem_filter_take hc, length_take_le' _ _⟩

/-- Witness for `sanitize_class_and_length` at vendorCode on `"a-1"`. -/
theorem sanitize_class_and_length_witness :
    FieldId.vendorCode ∈ charClassFields ∧
    ((∀ c ∈ sanitize FieldId.vendorCode ['a', '-', '1'],
        amendedAllowed FieldId.vendorCode c = true) ∧
      (sanitize FieldId.vendorCode ['a', '-', '1']).length ≤
        charClassMax FieldId.vendorCode) :=
  ⟨by decide, sanitize_class_and_length FieldId.vendorCode ['a', '-', '1']
    (by decide)⟩

/-- C1 (counterexample to the strict reading): the primaryContactName handler
keeps a tab character, which is outside the spec table's
letters/space/hyphen/apostrophe class. -/
theorem sanitize_strict_class_counterexample :
    sanitize FieldId.primaryContactName ['a', '\t', 'b'] = ['a', '\t', 'b'] ∧
    specStrictAllowed FieldId.primaryContactName '\t' = false := by
  decide

/-- C2: whatever option the user selects, the transport-mode change handler
always reports `road` to `onTransportModeChange`. -/
theorem transport_mode_pinned :
    ∀ selected : TransportMode,
      transportModeOnChange selected = TransportMode.road :=
  fun _ => rfl

/-- C3 (counterexample): it is not the case that the state/city inputs are
read-only exactly when no lookup error is active — with `isManual = true` and
no error the inputs are writable. -/
theorem readOnly_not_error_only :
    ¬ (∀ isManual geoErrorActive : Bool,
      stateReadOnly isManual geoErrorActive = !geoErrorActive ∧
      cityReadOnly isManual geoErrorActive = !geoErrorActive) := by
  decide

/-- C3 (amended): the state and city inputs are writable exactly when the hook
reports manual mode or a lookup error is active; they are read-only only when
neither holds. -/
theorem readOnly_iff_auto_and_no_error :
    ∀ isManual geoErrorActive : Bool,
      (stateReadOnly isManual geoErrorActive = false ↔
        (isManual = true ∨ geoErrorActive = true)) ∧
      (cityReadOnly isManual geoErrorActive = false ↔
        (isManual = true ∨ geoErrorActive = true)) := by
  decide

/-- C4: for every field with a character-class rule the handler filters first
and truncates second (`sanitize = truncate ∘ filter`), the phone example
evaluates to `"1234567890"`, and truncate-then-filter would disagree there. -/
theorem filter_before_truncate :
    (∀ raw, sanitize FieldId.vendorCode raw =
      filterThenTruncate FieldId.vendorCode raw) ∧
    (∀ raw, sanitize FieldId.primaryContactName raw =
      filterThenTruncate FieldId.primaryContactName raw) ∧
    (∀ raw, sanitize FieldId.contactPersonName raw =
      filterThenTruncate FieldId.contactPersonName raw) ∧
    (∀ raw, sanitize FieldId.primaryContactPhone raw =
      filterThenTruncate FieldId.primaryContactPhone raw) ∧
    (∀ raw, sanitize FieldId.vendorPhoneNumber raw =
      filterThenTruncate FieldId.vendorPhoneNumber raw) ∧
    (∀ raw, sanitize FieldId.gstin raw =
      filterThenTruncate FieldId.gstin raw) ∧
    (∀ raw, sanitize FieldId.pincode raw =
      filterThenTruncate FieldId.pincode raw) ∧
    sanitize FieldId.primaryContactPhone "12a3-456b7890123".toList =
      "1234567890".toList ∧
    truncateThenFilter FieldId.primaryContactPhone "12a3-456b7890123".toList ≠
      sanitize FieldId.primaryContactPhone "12a3-456b7890123".toList :=
  ⟨fun _ => rfl, fun _ => rfl, fun _ => rfl, fun _ => rfl, fun _ => rfl,
   fun _ => rfl, fun _ => rfl, by decide, by decide⟩

/-- C5: for vendorCode and gstin the uppercase map is applied to the raw input
before the A–Z/0–9 filter and the truncation, so lowercase letters are kept
uppercased; `"ab-12cd"` masks to `"AB12CD"`, `"22aaaaa0000a1z5extra"` masks to
`"22AAAAA0000A1Z5"`, and filtering before uppercasing would instead drop the
lowercase letters. -/
theorem uppercase_before_filter :
    (∀ raw, sanitize FieldId.vendorCode raw =
      ((raw.map jsToUpperAscii).filter alnumUpper).take 20) ∧
    (∀ raw, sanitize FieldId.gstin raw =
      ((raw.map jsToUpperAscii).filter alnumUpper).take 15) ∧
    sanitize FieldId.vendorCode "ab-12cd".toList = "AB12CD".toList ∧
    sanitize FieldId.gstin "22aaaaa0000a1z5extra".toList =
      "22AAAAA0000A1Z5".toList ∧
    (("ab-12cd".toList.filter alnumUpper).map jsToUpperAscii).take 20 ≠
      sanitize FieldId.vendorCode "ab-12cd".toList :=
  ⟨fun _ => rfl, fun _ => rfl, by decide, by decide, by decide⟩

/-- C6 (counterexample): the contactPersonName handler keeps a newline, which
is outside the claimed letters/space/hyphen/apostrophe class ("no other
whitespace"). -/
theorem name_mask_strict_counterexample :
    sanitize FieldId.contactPersonName ['x', '\n', 'y'] = ['x', '\n', 'y'] ∧
    specStrictAllowed FieldId.contactPersonName '\n' = false := by
  decide

/-- C6 (amended): the sanitized primaryContactName and contactPersonName
values contain only ASCII letters, JS whitespace characters (not just the
space), hyphens and apostrophes, truncated to 25 and 30 characters. -/
theorem name_mask_class_and_length :
    ∀ raw : List Char,
      (∀ c ∈ sanitize FieldId.primaryContactName raw, nameAllowed c = true) ∧
      (sanitize FieldId.primaryContactName raw).length ≤ 25 ∧
      (∀ c ∈ sanitize FieldId.contactPersonName raw, nameAllowed c = true) ∧
      (sanitize FieldId.contactPersonName raw).length ≤ 30 :=
  fun _ =>
    ⟨fun _ hc => mem_filter_take hc, length_take_le' _ _,
     fun _ hc => mem_filter_take hc, length_take_le' _ _⟩

/-- C7: every field's sanitization is idempotent —
`sanitize id (sanitize id raw) = sanitize id raw`. -/
theorem sanitize_idempotent :
    ∀ (id : FieldId) (raw : List Char),
      sanitize id (sanitize id raw) = sanitize id raw := by
  intro id raw
  cases id
  case legalCompanyName => exact take_idem raw 60
  case displayName => exact take_idem raw 30
  case companyName => exact take_idem raw 30
  case subVendor => exact take_idem raw 20
  case vendorCode => exact upper_filter_take_idem raw 20
  case primaryContactName => exact filter_take_idem nameAllowed raw 25
  case primaryContactPhone => exact filter_take_idem isAsciiDigit raw 10
  case primaryContactEmail => rfl
  case contactPersonName => exact filter_take_idem nameAllowed raw 30
  case vendorPhoneNumber => exact filter_take_idem isAsciiDigit raw 10
  case vendorEmailAddress => rfl
  case gstin => exact upper_filter_take_idem raw 15
  case address => exact take_idem raw 150
  case pincode => exact filter_take_idem isAsciiDigit raw 6

/-- The single store call a change event performs, as amended for C8: the
basics fields call `setField`, the pincode input calls the geo hook's
`setPincode`. -/
def storeEffect (id : FieldId) (v : List Char) : Effect :=
  match id with
  | .pincode => Effect.setPincode v
  | _ => Effect.setField (fieldName id) v

/-- C8 (counterexample): a change event on the (masked) pincode field performs
no `setField` call at all — it calls `setPincode` instead. -/
theorem pincode_change_not_setField :
    onChangeEffects FieldId.pincode ['1', '2', '3', '4', '5', '6'] =
      [Effect.setPincode ['1', '2', '3', '4', '5', '6']] ∧
    (onChangeEffects FieldId.pincode ['1', '2', '3', '4', '5', '6']).all
      (fun e => !isSetField e) = true := by
  decide

/-- C8 (amended): a change event on any field performs exactly one store call —
`setField(name, sanitized)` for the basics fields, `setPincode(sanitized)` for
pincode — never a `validateField` call; blur handlers perform only
`validateField` calls. -/
theorem change_sets_blur_validates :
    ∀ (id : FieldId) (raw : List Char) (g : Option (List Char)),
      onChangeEffects id raw = [storeEffect id (sanitize id raw)] ∧
      (onChangeEffects id raw).all (fun e => !isValidate e) = true ∧
      (onBlurEffects id g).all isValidate = true := by
  intro id raw g
  refine ⟨by cases id <;> rfl, by cases id <;> rfl, ?_⟩
  cases id <;> try rfl
  all_goals cases h : jsTruthy g <;> simp [onBlurEffects, h, isValidate]

/-- All fields whose blur handler is an unconditional `validateField` call
(every validated field except gstin; pincode has no blur handler). -/
def unconditionallyValidatedFields : List FieldId :=
  [.legalCompanyName, .displayName, .companyName, .subVendor, .vendorCode,
   .primaryContactName, .primaryContactPhone, .primaryContactEmail,
   .contactPersonName, .vendorPhoneNumber, .vendorEmailAddress, .address]

/-- C9: blurring gstin calls `validateField("gstin")` exactly when the current
value is a non-empty string; on `undefined` or the empty string the blur
handler performs nothing, while every other validated field's blur handler
calls `validateField` unconditionally. -/
theorem gstin_blur_iff_nonempty :
    ∀ g : Option (List Char),
      (Effect.validateField "gstin" ∈ onBlurEffects FieldId.gstin g ↔
        ∃ c cs, g = some (c :: cs)) ∧
      onBlurEffects FieldId.gstin none = [] ∧
      onBlurEffects FieldId.gstin (some []) = [] ∧
      (unconditionallyValidatedFields.all fun id =>
        decide (onBlurEffects id g =
          [Effect.validateField (fieldName id)])) = true := by
  intro g
  refine ⟨?_, rfl, rfl, rfl⟩
  match g with
  | none => simp [onBlurEffects, jsTruthy]
  | some [] => simp [onBlurEffects, jsTruthy]
  | some (c :: cs) =>
      exact ⟨fun _ => ⟨c, cs, rfl⟩, fun _ => List.mem_singleton.mpr rfl⟩

/-- C10: every edit of the state or city input forwards the raw value
unchanged (no filter, no case transform, no truncation) to `setState` or
`setCity`, and neither input triggers any `validateField` call. -/
theorem state_city_pass_raw :
    ∀ raw : List Char,
      stateOnChange raw = [Effect.setStateVal raw] ∧
      cityOnChange raw = [Effect.setCityVal raw] ∧
      (stateOnChange raw).all (fun e => !isValidate e) = true ∧
      (cityOnChange raw).all (fun e => !isValidate e) = true :=
  fun _ => ⟨rfl, rfl, rfl, rfl⟩

end CompanySection
